import Mathlib

/-!
Shallow embedding of the Air-Quality-Agent pipeline (src/graph/nodes.py,
src/graph/workflow.py, src/graph/state.py, src/app.py).

The Python code threads a list of record dicts (one dict per row, all rows
sharing the same keys) through pandas DataFrames.  We model a DataFrame in
column-major form: a list of (column name, column cells) pairs, in column
order.  `DataFrame(records)` / `to_dict(records)` round-trips exactly this
information, so the list-of-records state field is modelled by the same type.

Numbers are modelled by `ℚ`; pandas float NaN is an explicit `Cell.nan`
constructor, and the NaN-skipping behaviour of `mean`/`std`/`groupby` is
modelled explicitly.  `z = d / s` comparisons are modelled by their exact
rational consequences: comparing a NaN (0/0 or d/NaN) with 3 is False, and
a standard deviation of zero can only arise when every deviation is zero.
Timestamp parsing (`pd.to_datetime`) is modelled as the identity on the
stored string, with `.dt.date` taking the date part before the first space;
the claims under study never involve unparseable timestamps.
-/

/-- Cell of a dataframe column: a (rational) number, a float NaN, or a
non-numeric value such as a string or date, carried as a string. -/
inductive Cell
  | num (q : ℚ)
  | nan
  | str (s : String)
deriving DecidableEq, Repr

/-- Errors the pandas operations used by nodes.py can raise.  The repository
defines no exception classes of its own: the only failures are pandas
KeyError (missing column), the ValueError raised by `reset_index` when an
`index` column already exists, and the ValueError raised by `idxmax` on an
empty series. -/
inductive PdErr
  | keyError (c : String)
  | valueErrorIndexExists
  | valueErrorEmptyIdxmax
deriving DecidableEq, Repr

/-- Digits of a decimal literal to a natural number; `none` when the list is
empty or contains a non-digit. -/
def digitsToNat (ds : List Char) : Option Nat :=
  if ds.isEmpty then none
  else ds.foldlM (fun acc c => if c.isDigit then some (acc * 10 + (c.toNat - 48)) else none) 0

/-- Split a character list at the first dot. -/
def splitAtDot : List Char → (List Char × Option (List Char))
  | [] => ([], none)
  | c :: rest =>
    if c = Char.ofNat 46 then ([], some rest)
    else
      let p := splitAtDot rest
      (c :: p.1, p.2)

/-- Model of the number parsing performed by `pd.to_numeric` on a plain
decimal literal (optional sign, integer part, optional fractional part).
Exotic float syntax (exponents, padding spaces, inf) is outside the
datasets under study. -/
def parseNum (s : String) : Option ℚ :=
  let cs := s.toList
  let neg := cs.head? = some (Char.ofNat 45)
  let sgn : ℚ := if neg then -1 else 1
  let body := if neg then cs.tail else cs
  match splitAtDot body with
  | (ip, none) => (digitsToNat ip).map (fun n => sgn * (n : ℚ))
  | (ip, some fp) =>
      match digitsToNat ip, digitsToNat fp with
      | some n, some f => some (sgn * ((n : ℚ) + (f : ℚ) / (10 ^ fp.length)))
      | _, _ => none

/-- Decidable equality for Except, needed to evaluate the embedded
operations inside closed proofs. -/
instance {ε α : Type} [DecidableEq ε] [DecidableEq α] : DecidableEq (Except ε α) := fun x y =>
  match x, y with
  | Except.ok a, Except.ok b =>
      if h : a = b then Decidable.isTrue (by rw [h])
      else Decidable.isFalse (fun hh => h (by cases hh; rfl))
  | Except.error a, Except.error b =>
      if h : a = b then Decidable.isTrue (by rw [h])
      else Decidable.isFalse (fun hh => h (by cases hh; rfl))
  | Except.ok _, Except.error _ => Decidable.isFalse (fun hh => by cases hh)
  | Except.error _, Except.ok _ => Decidable.isFalse (fun hh => by cases hh)

/-- Column-major dataframe: columns in order, each with its name and cells. -/
structure DF where
  cols : List (String × List Cell)
deriving DecidableEq, Repr

/-- Membership test `name in df.columns`. -/
def DF.hasCol (df : DF) (c : String) : Bool :=
  df.cols.any (fun p => p.1 = c)

/-- Column access `df[c]`; callers that can hit a pandas KeyError test
`hasCol` first (see `getColE`). -/
def DF.getCol (df : DF) (c : String) : List Cell :=
  match df.cols.find? (fun p => p.1 = c) with
  | some p => p.2
  | none => []

/-- Column assignment `df[c] = vals`: replaces the column in place if `c`
already exists, otherwise appends it as the last column (pandas order). -/
def DF.setCol (df : DF) (c : String) (vals : List Cell) : DF :=
  if df.hasCol c then
    ⟨df.cols.map (fun p => if p.1 = c then (c, vals) else p)⟩
  else
    ⟨df.cols ++ [(c, vals)]⟩

/-- Number of rows (`len(df)` / `len(state["data"])`, the record count);
all columns of a frame built from records have this common length. -/
def DF.nrows (df : DF) : Nat :=
  match df.cols with
  | [] => 0
  | p :: _ => p.2.length

/-- Alignment invariant of a records-built frame: every column has `nrows`
cells. -/
def DF.aligned (df : DF) : Prop :=
  ∀ p ∈ df.cols, p.2.length = df.nrows

instance (df : DF) : Decidable df.aligned := by
  unfold DF.aligned; infer_instance

/-- Model of `df.reset_index()` on a default RangeIndex: inserts an `index`
column of positions at the front, raising ValueError when a column named
`index` already exists (this is what pandas does). -/
def DF.resetIndex (df : DF) : Except PdErr DF :=
  if df.hasCol "index" then Except.error PdErr.valueErrorIndexExists
  else Except.ok ⟨("index", (List.range df.nrows).map (fun i => Cell.num i)) :: df.cols⟩

/-- Column access raising KeyError when the column is absent. -/
def getColE (df : DF) (c : String) : Except PdErr (List Cell) :=
  if df.hasCol c then Except.ok (df.getCol c) else Except.error (PdErr.keyError c)

/-- Numeric (non-NaN) values of a column, in order: the values that pandas
reductions such as `mean`/`std` actually aggregate (NaN is skipped). -/
def cellsValid (l : List Cell) : List ℚ :=
  l.filterMap (fun c => match c with | Cell.num q => some q | _ => none)

/-- Model of `Series.mean()`: mean of the non-NaN values, NaN when there are
none. -/
def pdMean (l : List Cell) : Cell :=
  let v := cellsValid l
  if v.length = 0 then Cell.nan else Cell.num (v.sum / (v.length : ℚ))

/-- Model of `Series.max()` (NaN-skipping, NaN when no valid value). -/
def pdMax (l : List Cell) : Cell :=
  match cellsValid l with
  | [] => Cell.nan
  | x :: xs => Cell.num (xs.foldl max x)

/-- Model of `Series.min()` (NaN-skipping, NaN when no valid value). -/
def pdMin (l : List Cell) : Cell :=
  match cellsValid l with
  | [] => Cell.nan
  | x :: xs => Cell.num (xs.foldl min x)

/-- Model of `Series.fillna(m)`: replaces every NaN cell by `m` (when `m` is
itself NaN, as for the mean of an all-NaN column, the column is unchanged,
exactly as in pandas). -/
def fillna (l : List Cell) (m : Cell) : List Cell :=
  l.map (fun c => match c with | Cell.nan => m | x => x)

/-- Model of elementwise `pd.to_numeric(col, errors="coerce")`. -/
def toNumeric (c : Cell) : Cell :=
  match c with
  | Cell.num q => Cell.num q
  | Cell.nan => Cell.nan
  | Cell.str s => match parseNum s with | some q => Cell.num q | none => Cell.nan

/-- Date part of an ISO timestamp string (`.dt.date` after `to_datetime`,
with `to_datetime` modelled as the identity on the stored string). A NaN
timestamp gives NaT, modelled as NaN, which `groupby` later drops. -/
def dateOfCell (c : Cell) : Cell :=
  match c with
  | Cell.str s => Cell.str (((s.splitOn " ").headD s))
  | _ => Cell.nan

/-- Model of Python `str(x)` on an index entry (timestamps are carried as
their source strings, positions as decimal numerals). -/
def cellToStr (c : Cell) : String :=
  match c with
  | Cell.str s => s
  | Cell.num q => toString q
  | Cell.nan => "nan"

/-- Primary pollutant column name used throughout nodes.py. -/
def pm25name : String := "PM2.5 (µg/m³)"

/-- Secondary pollutant column name used throughout nodes.py. -/
def pm10name : String := "PM10 (µg/m³)"

/-- Anomaly mask of `abs((col - col.mean()) / col.std()) > 3` (nodes.py,
detect_anomalies).  `Series.std()` is the pandas default sample standard
deviation (ddof = 1).  The float semantics are rendered exactly:
with fewer than two valid values the std is NaN, so every comparison with 3
is False; a zero std forces every valid deviation to be zero, so each z is
0/0 = NaN and again nothing is flagged; otherwise `abs(d)/s > 3` for a
positive s is the rational comparison `d^2 > 9 * s^2`, and a NaN cell has a
NaN z-score. -/
def zFlag (col : List Cell) : List Bool :=
  let v := cellsValid col
  let nv := v.length
  if nv ≤ 1 then col.map (fun _ => false)
  else
    let m := v.sum / (nv : ℚ)
    let s2 := (v.map (fun x => (x - m) ^ 2)).sum / ((nv : ℚ) - 1)
    if s2 = 0 then col.map (fun _ => false)
    else col.map (fun c =>
      match c with
      | Cell.num x => decide ((x - m) ^ 2 > 9 * s2)
      | _ => false)

/-- Record identifiers used by detect_anomalies: the Timestamp index when a
Timestamp column exists (after `set_index("Timestamp")`), otherwise the
default RangeIndex positions. -/
def indexIdents (df : DF) : List String :=
  if df.hasCol "Timestamp" then (df.getCol "Timestamp").map cellToStr
  else (List.range df.nrows).map (fun i => toString i)

/-- The Date-derivation step of validate_readings: `Date` from the
Timestamp column when present, the constant "Unknown" otherwise. -/
def vDate (d : DF) : DF :=
  if d.hasCol "Timestamp" then d.setCol "Date" ((d.getCol "Timestamp").map dateOfCell)
  else d.setCol "Date" (List.replicate d.nrows (Cell.str "Unknown"))

/-- The column transformations of validate_readings after the Date step and
after both KeyError checks passed: coerce both pollutant columns to numeric
and fill NaN with the column mean, statement by statement. -/
def vStage5 (d : DF) : DF :=
  let df1 := vDate d
  let df2 := df1.setCol pm25name ((df1.getCol pm25name).map toNumeric)
  let df3 := df2.setCol pm10name ((df2.getCol pm10name).map toNumeric)
  let df4 := df3.setCol pm25name (fillna (df3.getCol pm25name) (pdMean (df3.getCol pm25name)))
  df4.setCol pm10name (fillna (df4.getCol pm10name) (pdMean (df4.getCol pm10name)))

/-- Data part of validate_readings (nodes.py): derive `Date` (vDate), coerce
both pollutant columns to numeric (KeyError when absent), fill NaN with the
column mean (vStage5), and `reset_index()` the result.  `df["Timestamp"] =
pd.to_datetime(df["Timestamp"])` is the identity in this model and is
therefore not written out. -/
def validateDF (d : DF) : Except PdErr DF :=
  let df1 := vDate d
  if df1.hasCol pm25name then
    let df2 := df1.setCol pm25name ((df1.getCol pm25name).map toNumeric)
    if df2.hasCol pm10name then (vStage5 d).resetIndex
    else Except.error (PdErr.keyError pm10name)
  else Except.error (PdErr.keyError pm25name)

/-- Data part of detect_anomalies (nodes.py): z-score mask on the primary
pollutant, identifiers of the masked rows, stringified. -/
def detectDF (df : DF) : Except PdErr (List String) := do
  let col ← getColE df pm25name
  let mask := zFlag col
  Except.ok (((indexIdents df).zip mask).filterMap
    (fun p => if p.2 then some p.1 else none))

/-- Helper for `firstDedup`: drop elements already seen. -/
def firstDedupAux : List String → List String → List String
  | [], _ => []
  | x :: xs, seen => if seen.contains x then firstDedupAux xs seen
                     else x :: firstDedupAux xs (x :: seen)

/-- Distinct elements in order of first appearance. -/
def firstDedup (l : List String) : List String :=
  firstDedupAux l []

/-- Lexicographic comparison of character lists by code point: the ordering
of Lean's String ≤, written out structurally so that it evaluates inside
closed proofs. -/
def charsLe : List Char → List Char → Bool
  | [], _ => true
  | _ :: _, [] => false
  | c :: cs, d :: ds =>
    if c.toNat < d.toNat then true
    else if d.toNat < c.toNat then false
    else charsLe cs ds

/-- Lexicographic string comparison; on ISO date strings this is the
chronological order pandas sorts group keys by. -/
def strLe (s t : String) : Bool := charsLe s.toList t.toList

/-- Insert into a lexicographically sorted list of strings. -/
def insStr (s : String) : List String → List String
  | [] => [s]
  | t :: ts => if strLe s t then s :: t :: ts else t :: insStr s ts

/-- Group keys of `df.groupby("Date")`: the distinct non-NaN date values in
ascending order (pandas sorts group keys; NaN/NaT keys are dropped).  Date
cells are strings in this model, and ISO date strings sort
chronologically. -/
def sortedKeys (dates : List Cell) : List String :=
  (firstDedup (dates.filterMap (fun c => match c with | Cell.str s => some s | _ => none))).foldr insStr []

/-- Mean of the primary-pollutant cells of the rows whose Date equals `k`
(one entry of `df.groupby("Date")["PM2.5 (µg/m³)"].mean()`). -/
def groupMean (dates pms : List Cell) (k : String) : Cell :=
  pdMean ((dates.zip pms).filterMap (fun p => if p.1 = Cell.str k then some p.2 else none))

/-- get_aqi_label (nodes.py): fixed ascending thresholds. -/
def get_aqi_label (pm25 : ℚ) : String :=
  if pm25 < 12 then "Good"
  else if pm25 < 35 then "Moderate"
  else if pm25 < 55 then "Unhealthy for Sensitive Groups"
  else if pm25 < 150 then "Unhealthy"
  else "Hazardous"

/-- get_aqi_label applied to a possibly-NaN daily mean: every `<` comparison
with NaN is False in Python, so a NaN mean falls through to "Hazardous". -/
def aqiLabelCell (c : Cell) : String :=
  match c with
  | Cell.num q => get_aqi_label q
  | _ => "Hazardous"

/-- Stable insertion (by descending count) used to model the descending
sort of `value_counts()`. -/
def insByCount (p : String × Nat) : List (String × Nat) → List (String × Nat)
  | [] => [p]
  | q :: qs => if p.2 ≥ q.2 then p :: q :: qs else q :: insByCount p qs

/-- Stable descending-by-count sort. -/
def sortByCountDesc (l : List (String × Nat)) : List (String × Nat) :=
  l.foldr insByCount []

/-- Model of `Series.value_counts()`: (value, frequency) pairs, most
frequent first (ties kept in first-appearance order). `idxmax()` on the
result is its head, and `to_dict()` is the list itself. -/
def valueCounts (l : List String) : List (String × Nat) :=
  sortByCountDesc ((firstDedup l).map (fun c => (c, l.count c)))

/-- Dataframe with `Date` recomputed from `Timestamp` when that column is
present (the shared preamble of classify_air_quality). -/
def withDateFromTs (df : DF) : DF :=
  if df.hasCol "Timestamp" then df.setCol "Date" ((df.getCol "Timestamp").map dateOfCell)
  else df

/-- AQI label of each daily average, one per group key. -/
def dayLabels (dates pms : List Cell) : List String :=
  (sortedKeys dates).map (fun k => aqiLabelCell (groupMean dates pms k))

/-- Data part of classify_air_quality (nodes.py): daily averages of the
primary pollutant, labels, `value_counts()`; the primary category is
`idxmax()` (head of the counts), paired with the full breakdown.
KeyError when `Date` or the pollutant column is missing, ValueError from
`idxmax()` when no groups remain. -/
def classifyDF (df0 : DF) : Except PdErr (String × List (String × Nat)) :=
  let df := withDateFromTs df0
  if df.hasCol "Date" then
    if df.hasCol pm25name then
      match valueCounts (dayLabels (df.getCol "Date") (df.getCol pm25name)) with
      | [] => Except.error PdErr.valueErrorEmptyIdxmax
      | (c, k) :: rest => Except.ok (c, (c, k) :: rest)
    else Except.error (PdErr.keyError pm25name)
  else Except.error (PdErr.keyError "Date")

/-- Single-quote character, used when rendering Python dict literals. -/
def squote : String := (Char.ofNat 39).toString

/-- Python `repr` of the `{category: count}` breakdown dict. -/
def pyDictRepr (l : List (String × Nat)) : String :=
  "\x7b" ++ String.intercalate ", " (l.map (fun p => squote ++ p.1 ++ squote ++ ": " ++ toString p.2)) ++ "\x7d"

/-- Classification result string `f"{primary_category} (Frequency: {breakdown})"`. -/
def formatClass (r : String × List (String × Nat)) : String :=
  r.1 ++ " (Frequency: " ++ pyDictRepr r.2 ++ ")"

/-- AgentState (src/graph/state.py), with `data` carried in the column-major
record form described above and floats as exact rationals. -/
structure AgentState where
  data : DF
  anomalies : List String
  anomaly_threshold : ℚ
  air_quality_class : String
  trend_summary : List (String × Cell)
  final_summary : String
  alert_triggered : Bool
  approved : Bool
  feedback : String
  iterations : Nat
  tool_outputs : List String
deriving DecidableEq, Repr

/-- initial_state built by app.py for a fresh run: caller-supplied dataset
and threshold, every other field at its zero-value. -/
def initial_state (data : DF) (threshold : ℚ) : AgentState :=
  { data := data
    anomalies := []
    anomaly_threshold := threshold
    air_quality_class := "Unknown"
    trend_summary := []
    final_summary := ""
    alert_triggered := false
    approved := false
    feedback := ""
    iterations := 0
    tool_outputs := [] }

/-- get_health_guidelines (nodes.py): fixed lookup with a default. -/
def get_health_guidelines (aqi_category : String) : String :=
  if aqi_category = "Good" then "Air quality is satisfactory. Enjoy outdoor activities."
  else if aqi_category = "Moderate" then "Sensitive individuals should consider reducing prolonged outdoor exertion."
  else if aqi_category = "Unhealthy for Sensitive Groups" then "Children, active adults, and people with respiratory disease should limit outdoor exertion."
  else if aqi_category = "Unhealthy" then "Everyone should limit prolonged outdoor exertion."
  else if aqi_category = "Hazardous" then "Health warning of emergency conditions. The entire population is more likely to be affected."
  else "No specific guidelines available."

/-- validate_readings node: state wrapper around `validateDF`. -/
def validate_readings (s : AgentState) : Except PdErr AgentState :=
  match validateDF s.data with
  | Except.ok d => Except.ok { s with data := d }
  | Except.error e => Except.error e

/-- detect_anomalies node: state wrapper around `detectDF`. -/
def detect_anomalies (s : AgentState) : Except PdErr AgentState :=
  match detectDF s.data with
  | Except.ok a => Except.ok { s with anomalies := a }
  | Except.error e => Except.error e

/-- classify_air_quality node: state wrapper around `classifyDF`, storing the
formatted result string. -/
def classify_air_quality (s : AgentState) : Except PdErr AgentState :=
  match classifyDF s.data with
  | Except.ok r => Except.ok { s with air_quality_class := formatClass r }
  | Except.error e => Except.error e

/-- alert_decision (nodes.py): anomaly ratio (0 when the dataset is empty)
compared against the threshold. -/
def alert_decision (s : AgentState) : Except PdErr AgentState :=
  let data_len := s.data.nrows
  let anomaly_ratio : ℚ := if data_len > 0 then (s.anomalies.length : ℚ) / (data_len : ℚ) else 0
  Except.ok { s with alert_triggered := decide (anomaly_ratio > s.anomaly_threshold) }

/-- generate_trend_summary (nodes.py): named aggregates of both pollutant
columns (KeyError when a column is missing). -/
def generate_trend_summary (s : AgentState) : Except PdErr AgentState :=
  if s.data.hasCol pm25name then
    if s.data.hasCol pm10name then
      let c25 := s.data.getCol pm25name
      let c10 := s.data.getCol pm10name
      Except.ok { s with trend_summary :=
        [("mean_pm25", pdMean c25), ("max_pm25", pdMax c25),
         ("min_pm25", pdMin c25), ("mean_pm10", pdMean c10)] }
    else Except.error (PdErr.keyError pm10name)
  else Except.error (PdErr.keyError pm25name)

/-- Dict lookup `trends[k]` raising KeyError when absent. -/
def lookupTrend (l : List (String × Cell)) (k : String) : Except PdErr Cell :=
  match l.find? (fun p => p.1 = k) with
  | some p => Except.ok p.2
  | none => Except.error (PdErr.keyError k)

/-- Numeric rendering used when a trend value is interpolated into the
prompt (float string formatting is abstracted to `toString`). -/
def cellNumStr (c : Cell) : String :=
  match c with
  | Cell.num q => toString q
  | _ => "nan"

/-- Prompt assembled by nl_summary (nodes.py).  The literal sentences are
abbreviated structural stand-ins: only the data dependencies matter to the
workflow, the text itself goes to the external LLM. -/
def nlPrompt (m25 x25 m10 : Cell) (classification alert_status : String)
    (tool_outputs : List String) (feedback : String) : String :=
  "Analyze the following air quality report: - Average PM2.5: " ++ cellNumStr m25
  ++ " - Max PM2.5: " ++ cellNumStr x25
  ++ " - Average PM10: " ++ cellNumStr m10
  ++ " - Classification: " ++ classification
  ++ " - Alert Status: " ++ alert_status
  ++ (if tool_outputs.isEmpty then
        " You have not checked the official health guidelines yet."
      else " Health Guidelines Tool Output: " ++ String.intercalate "; " tool_outputs)
  ++ (if feedback = "" then "" else " Previous Feedback for improvement: " ++ feedback)
  ++ " Provide a professional summary."

/-- nl_summary (nodes.py), parameterised by the external text-generation
service `llm`.  It reads the trend dict (KeyError outside the try block if a
key is missing), fetches guidelines once when none are stored and the
primary category is not "Good", falls back to a fixed error string when the
service fails, and always increments `iterations`. -/
def nl_summary (llm : String → Except String String) (s : AgentState) :
    Except PdErr AgentState := do
  let m25 ← lookupTrend s.trend_summary "mean_pm25"
  let x25 ← lookupTrend s.trend_summary "max_pm25"
  let m10 ← lookupTrend s.trend_summary "mean_pm10"
  let alert_status := if s.alert_triggered then "TRIGGERED" else "Not Triggered"
  let prompt := nlPrompt m25 x25 m10 s.air_quality_class alert_status s.tool_outputs s.feedback
  let cat_for_tool := (s.air_quality_class.splitOn " (").headD s.air_quality_class
  let fetch := s.tool_outputs.isEmpty ∧ cat_for_tool ≠ "Good"
  let tool_outputs := if fetch then [get_health_guidelines cat_for_tool] else s.tool_outputs
  let prompt2 := if fetch then prompt ++ " New information from tool: " ++ get_health_guidelines cat_for_tool else prompt
  let response := match llm prompt2 with
    | Except.ok r => r
    | Except.error e => "AI summary currently unavailable. (Error: " ++ e ++ ")"
  Except.ok { s with final_summary := response, iterations := s.iterations + 1,
                     tool_outputs := tool_outputs }

/-- Word count `len(summary.split())`: whitespace-separated, empties
dropped. -/
def pyWordCount (s : String) : Nat :=
  ((s.split (fun c => c.isWhitespace)).filter (fun w => w ≠ "")).length

/-- critique_summary (nodes.py): request more detail when the summary is
short and fewer than 3 iterations have run, otherwise accept with "Good". -/
def critique_summary (s : AgentState) : Except PdErr AgentState :=
  if pyWordCount s.final_summary < 30 ∧ s.iterations < 3 then
    Except.ok { s with feedback := "The summary is too short. Please provide more detail and health recommendations." }
  else
    Except.ok { s with feedback := "Good" }

/-- Nodes of the fixed graph built by create_workflow (workflow.py). -/
inductive WNode
  | validate_readings
  | detect_anomalies
  | classify_air_quality
  | alert_decision
  | generate_trend_summary
  | nl_summary
  | critique_summary
deriving DecidableEq, Repr

/-- should_continue_refining (workflow.py): the conditional-edge router. -/
def should_continue_refining (s : AgentState) : String :=
  if s.feedback = "Good" then "finish" else "refine"

/-- The `{"finish": END, "refine": "nl_summary"}` mapping attached to the
conditional edge out of critique_summary; `none` is END. -/
def critiqueBranch (tag : String) : Option WNode :=
  if tag = "finish" then none
  else if tag = "refine" then some WNode.nl_summary
  else none

/-- Successor function of the graph built by create_workflow: the six
unconditional `add_edge` calls plus the single conditional edge out of
critique_summary. `none` is END. -/
def nextNode (n : WNode) (s : AgentState) : Option WNode :=
  match n with
  | WNode.validate_readings => some WNode.detect_anomalies
  | WNode.detect_anomalies => some WNode.classify_air_quality
  | WNode.classify_air_quality => some WNode.alert_decision
  | WNode.alert_decision => some WNode.generate_trend_summary
  | WNode.generate_trend_summary => some WNode.nl_summary
  | WNode.nl_summary => some WNode.critique_summary
  | WNode.critique_summary => critiqueBranch (should_continue_refining s)

/-- Entry point set by `set_entry_point("validate_readings")`. -/
def entryPoint : WNode := WNode.validate_readings

/-- The `interrupt_before=["alert_decision"]` list passed to `compile`. -/
def interrupt_before : List WNode := [WNode.alert_decision]

/-- Execute one node body on the state. -/
def runNode (llm : String → Except String String) (n : WNode) (s : AgentState) :
    Except PdErr AgentState :=
  match n with
  | WNode.validate_readings => validate_readings s
  | WNode.detect_anomalies => detect_anomalies s
  | WNode.classify_air_quality => classify_air_quality s
  | WNode.alert_decision => alert_decision s
  | WNode.generate_trend_summary => generate_trend_summary s
  | WNode.nl_summary => nl_summary llm s
  | WNode.critique_summary => critique_summary s

/-- Observable outcome of driving the compiled graph: paused before a node
(the LangGraph interrupt, with the pending node and the executed trace),
finished, failed inside a node, or out of fuel (the refinement cycle means a
fuel bound is needed for a total model; every claim under study is settled
at a fuel level the graph cannot exhaust). -/
inductive RunResult
  | paused (pending : WNode) (s : AgentState) (executed : List WNode)
  | finished (s : AgentState) (executed : List WNode)
  | failed (e : PdErr) (at_ : WNode) (s : AgentState) (executed : List WNode)
  | outOfFuel
deriving DecidableEq, Repr

/-- Drive the graph from node `n`: pause on reaching a node listed in
`interrupt_before` (before executing it), otherwise execute it and follow
`nextNode`. -/
def runLoop (llm : String → Except String String) :
    Nat → WNode → AgentState → List WNode → RunResult
  | 0, _, _, _ => RunResult.outOfFuel
  | Nat.succ fuel, n, s, tr =>
    if interrupt_before.contains n then RunResult.paused n s tr
    else
      match runNode llm n s with
      | Except.error e => RunResult.failed e n s tr
      | Except.ok s2 =>
        match nextNode n s2 with
        | none => RunResult.finished s2 (tr ++ [n])
        | some n2 => runLoop llm fuel n2 s2 (tr ++ [n])

/-- Start a fresh run (`graph_app.stream(initial_state, config)`): drive the
graph from the entry point. -/
def startRun (llm : String → Except String String) (fuel : Nat) (init : AgentState) :
    RunResult :=
  runLoop llm fuel entryPoint init []

/-- Resume a paused run (`graph_app.stream(None, config)`): execute the
pending node, then continue driving the graph. -/
def resumeRun (llm : String → Except String String) (fuel : Nat)
    (pending : WNode) (s : AgentState) : RunResult :=
  match runNode llm pending s with
  | Except.error e => RunResult.failed e pending s []
  | Except.ok s2 =>
    match nextNode pending s2 with
    | none => RunResult.finished s2 [pending]
    | some n2 => runLoop llm fuel n2 s2 [pending]

/-- Modelled from the spec: z-score mask with the population standard
deviation (ddof = 0), the reading the spec assigns to detect_anomalies
("computes the population z-score ... across the full dataset").  Used only
to compare the spec text with the code, which uses the pandas default
`Series.std()` (ddof = 1). -/
def zFlagPop (col : List Cell) : List Bool :=
  let v := cellsValid col
  let nv := v.length
  if nv = 0 then col.map (fun _ => false)
  else
    let m := v.sum / (nv : ℚ)
    let s2 := (v.map (fun x => (x - m) ^ 2)).sum / (nv : ℚ)
    if s2 = 0 then col.map (fun _ => false)
    else col.map (fun c =>
      match c with
      | Cell.num x => decide ((x - m) ^ 2 > 9 * s2)
      | _ => false)

/-- Modelled from the spec: detect_anomalies as the spec words it, identical
to `detectDF` except for the population z-score. -/
def detectPopSpec (df : DF) : Except PdErr (List String) := do
  let col ← getColE df pm25name
  let mask := zFlagPop col
  Except.ok (((indexIdents df).zip mask).filterMap
    (fun p => if p.2 then some p.1 else none))

/-- Tiny CSV-shaped dataset: one record, both pollutant columns, no
Timestamp. -/
def exDS : DF := ⟨[(pm25name, [Cell.num 10]), (pm10name, [Cell.num 20])]⟩

/-- The frame validate_readings produces from `exDS`. -/
def exOut : DF :=
  ⟨[("index", [Cell.num 0]), (pm25name, [Cell.num 10]), (pm10name, [Cell.num 20]),
    ("Date", [Cell.str "Unknown"])]⟩

/-- A text-generation stub used to instantiate workflow runs (the run under
study pauses before any LLM call, so the value is immaterial). -/
def llm0 : String → Except String String := fun _ => Except.ok "sum"

/-- Fresh initial state over `exDS` with the app default threshold 1%. -/
def st0 : AgentState := initial_state exDS (1 / 100)

/-- Counterexample dataset for the population-vs-sample z-score question:
twelve readings with mean 0; the first deviates by 10 with Σd² = 126, so its
population z² is 1200/126 > 9 while its sample z² is 1100/126 < 9. -/
def c4df : DF :=
  ⟨[(pm25name,
     [Cell.num 10, Cell.num (-3), Cell.num (-3), Cell.num (-2), Cell.num (-2),
      Cell.num 0, Cell.num 0, Cell.num 0, Cell.num 0, Cell.num 0, Cell.num 0, Cell.num 0])]⟩

/-- Dataset for the amended sample-z-score statement: a clear outlier among
twelve zeros (sample z of the outlier 12/sqrt 13 ≈ 3.33). -/
def c4wdf : DF :=
  ⟨[(pm25name,
     [Cell.num 100, Cell.num 0, Cell.num 0, Cell.num 0, Cell.num 0, Cell.num 0,
      Cell.num 0, Cell.num 0, Cell.num 0, Cell.num 0, Cell.num 0, Cell.num 0, Cell.num 0])]⟩

/-- The pollutant values of `c4wdf` as rationals. -/
def c4wvals : List ℚ := [100, 0, 0, 0, 0, 0, 0, 0, 0, 0, 0, 0, 0]

/-- Single-day single-record dataset with primary pollutant 10. -/
def singleGood : DF :=
  ⟨[(pm25name, [Cell.num 10]), (pm10name, [Cell.num 20]), ("Date", [Cell.str "2024-01-01"])]⟩

/-- Single-day single-record dataset with primary pollutant 200. -/
def singleHaz : DF :=
  ⟨[(pm25name, [Cell.num 200]), (pm10name, [Cell.num 220]), ("Date", [Cell.str "2024-01-01"])]⟩

/-- Dataset whose primary-pollutant column is present but entirely
non-numeric. -/
def nonNumericDS : DF :=
  ⟨[(pm25name, [Cell.str "abc", Cell.str "xy"]), (pm10name, [Cell.num 5, Cell.num 6])]⟩

/-- The frame validate_readings produces from `nonNumericDS`: it succeeds,
with the non-numeric column all NaN. -/
def nonNumericOut : DF :=
  ⟨[("index", [Cell.num 0, Cell.num 1]), (pm25name, [Cell.nan, Cell.nan]),
    (pm10name, [Cell.num 5, Cell.num 6]), ("Date", [Cell.str "Unknown", Cell.str "Unknown"])]⟩

/-- Zero-variance dataset: three identical readings. -/
def constDS : DF := ⟨[(pm25name, [Cell.num 5, Cell.num 5, Cell.num 5])]⟩

/-- The empty dataset: `pd.DataFrame([])` has no columns at all. -/
def emptyDF : DF := ⟨[]⟩

/-- A frame with a Date column whose every entry is NaT, so grouping leaves
no groups. -/
def noKeysDS : DF := ⟨[("Date", [Cell.nan]), (pm25name, [Cell.num 5])]⟩

/-- State exercising alert_decision on an empty dataset with a negative
threshold. -/
def negState : AgentState := initial_state emptyDF (-1)

/-- Timestamped variant of the sample-z-score witness dataset: thirteen
hourly readings, a single clear outlier, the app's normal input shape. -/
def c4tdf : DF :=
  ⟨[("Timestamp",
     [Cell.str "2024-01-01 00:00:00", Cell.str "2024-01-01 01:00:00",
      Cell.str "2024-01-01 02:00:00", Cell.str "2024-01-01 03:00:00",
      Cell.str "2024-01-01 04:00:00", Cell.str "2024-01-01 05:00:00",
      Cell.str "2024-01-01 06:00:00", Cell.str "2024-01-01 07:00:00",
      Cell.str "2024-01-01 08:00:00", Cell.str "2024-01-01 09:00:00",
      Cell.str "2024-01-01 10:00:00", Cell.str "2024-01-01 11:00:00",
      Cell.str "2024-01-01 12:00:00"]),
    (pm25name,
     [Cell.num 100, Cell.num 0, Cell.num 0, Cell.num 0, Cell.num 0, Cell.num 0,
      Cell.num 0, Cell.num 0, Cell.num 0, Cell.num 0, Cell.num 0, Cell.num 0, Cell.num 0])]⟩

/-- Three records on three distinct days with two categories (Good twice,
Hazardous once), exercising a multi-entry frequency breakdown. -/
def multiDS : DF :=
  ⟨[(pm25name, [Cell.num 10, Cell.num 11, Cell.num 200]),
    (pm10name, [Cell.num 20, Cell.num 21, Cell.num 220]),
    ("Date", [Cell.str "2024-01-01", Cell.str "2024-01-02", Cell.str "2024-01-03"])]⟩

/-! Helper lemmas about the dataframe operations. -/

theorem find?_map_upd (cols : List (String × List Cell)) (c : String) (vals : List Cell) :
    (cols.map (fun p => if p.1 = c then (c, vals) else p)).find? (fun p => decide (p.1 = c))
      = if cols.any (fun p => decide (p.1 = c)) then some (c, vals) else none := by
  induction cols with
  | nil => rfl
  | cons q qs ih =>
    by_cases hq : q.1 = c
    · simp only [List.map_cons, if_pos hq, List.any_cons]
      rw [List.find?_cons_of_pos _ (by simp)]
      simp [hq]
    · simp only [List.map_cons, if_neg hq, List.any_cons]
      rw [List.find?_cons_of_neg _ (by simpa using hq)]
      simp only [show (decide (q.1 = c)) = false from by simpa using hq, Bool.false_or]
      exact ih

theorem find?_map_upd_ne (cols : List (String × List Cell)) (c c2 : String) (vals : List Cell)
    (h : c2 ≠ c) :
    (cols.map (fun p => if p.1 = c then (c, vals) else p)).find? (fun p => decide (p.1 = c2))
      = cols.find? (fun p => decide (p.1 = c2)) := by
  induction cols with
  | nil => rfl
  | cons q qs ih =>
    by_cases hq : q.1 = c
    · have hq2 : ¬ q.1 = c2 := by rw [hq]; exact fun hh => h hh.symm
      have hcc2 : ¬ c = c2 := fun hh => h hh.symm
      simp only [List.map_cons, if_pos hq]
      rw [List.find?_cons_of_neg _ (by simpa using hcc2),
          List.find?_cons_of_neg _ (by simpa using hq2)]
      exact ih
    · simp only [List.map_cons, if_neg hq]
      by_cases hq2 : q.1 = c2
      · rw [List.find?_cons_of_pos _ (by simpa using hq2),
            List.find?_cons_of_pos _ (by simpa using hq2)]
      · rw [List.find?_cons_of_neg _ (by simpa using hq2),
            List.find?_cons_of_neg _ (by simpa using hq2)]
        exact ih

theorem DF.hasCol_mk_cons (p : String × List Cell) (cs : List (String × List Cell)) (c : String) :
    (DF.mk (p :: cs)).hasCol c = (decide (p.1 = c) || (DF.mk cs).hasCol c) := by
  simp [DF.hasCol]

theorem DF.getCol_mk_cons_ne (p : String × List Cell) (cs : List (String × List Cell))
    (c : String) (h : p.1 ≠ c) : (DF.mk (p :: cs)).getCol c = (DF.mk cs).getCol c := by
  simp only [DF.getCol]
  rw [List.find?_cons_of_neg _ (by simpa using h)]

theorem DF.hasCol_setCol_of (df : DF) (c c2 : String) (vals : List Cell)
    (h : df.hasCol c2 = true) : (df.setCol c vals).hasCol c2 = true := by
  unfold DF.setCol
  by_cases hc : df.hasCol c = true
  · simp only [hc, if_true]
    rcases List.any_eq_true.mp h with ⟨p, hp, hpc⟩
    refine List.any_eq_true.mpr ⟨if p.1 = c then (c, vals) else p, List.mem_map_of_mem _ hp, ?_⟩
    by_cases hpc2 : p.1 = c <;> simp_all
  · have hc' : df.hasCol c = false := by simpa using hc
    simp only [hc', Bool.false_eq_true, if_false]
    unfold DF.hasCol at h ⊢
    simp [List.any_append, h]

theorem DF.hasCol_setCol_ne (df : DF) (c c2 : String) (vals : List Cell)
    (h : c2 ≠ c) : (df.setCol c vals).hasCol c2 = df.hasCol c2 := by
  unfold DF.setCol
  by_cases hc : df.hasCol c = true
  · simp only [hc, if_true]
    unfold DF.hasCol
    simp only [List.any_map]
    congr 1
    funext p
    by_cases hpc : p.1 = c <;> simp_all [Function.comp]
  · have hc' : df.hasCol c = false := by simpa using hc
    simp only [hc', Bool.false_eq_true, if_false]
    unfold DF.hasCol
    rw [List.any_append]
    have hcc2 : ¬ c = c2 := fun hh => h hh.symm
    have h1 : (([(c, vals)] : List (String × List Cell)).any (fun p => decide (p.1 = c2))) = false := by
      simpa using hcc2
    rw [h1, Bool.or_false]

theorem DF.getCol_setCol_self (df : DF) (c : String) (vals : List Cell) :
    (df.setCol c vals).getCol c = vals := by
  unfold DF.setCol
  by_cases hc : df.hasCol c = true
  · simp only [hc, if_true]
    unfold DF.getCol
    rw [find?_map_upd]
    unfold DF.hasCol at hc
    simp [hc]
  · have hc' : df.hasCol c = false := by simpa using hc
    simp only [hc', Bool.false_eq_true, if_false]
    unfold DF.getCol
    have hnone : df.cols.find? (fun p => decide (p.1 = c)) = none := by
      rw [List.find?_eq_none]
      intro p hp hpc
      exact hc (List.any_eq_true.mpr ⟨p, hp, hpc⟩)
    rw [List.find?_append, hnone]
    simp [List.find?_cons_of_pos]

theorem DF.getCol_setCol_ne (df : DF) (c c2 : String) (vals : List Cell)
    (h : c2 ≠ c) : (df.setCol c vals).getCol c2 = df.getCol c2 := by
  unfold DF.setCol
  by_cases hc : df.hasCol c = true
  · simp only [hc, if_true]
    unfold DF.getCol
    rw [find?_map_upd_ne _ _ _ _ h]
  · have hc' : df.hasCol c = false := by simpa using hc
    simp only [hc', Bool.false_eq_true, if_false]
    unfold DF.getCol
    rw [List.find?_append]
    have h1 : (([(c, vals)] : List (String × List Cell)).find? (fun p => decide (p.1 = c2))) = none := by
      rw [List.find?_eq_none]
      intro p hp hpc
      simp at hp
      rw [hp] at hpc
      simp at hpc
      exact h hpc.symm
    rw [h1]
    cases df.cols.find? (fun p => decide (p.1 = c2)) <;> simp

theorem mem_cellsValid (l : List Cell) (x : ℚ) : x ∈ cellsValid l ↔ Cell.num x ∈ l := by
  unfold cellsValid
  rw [List.mem_filterMap]
  constructor
  · rintro ⟨c, hc, hcx⟩
    cases c with
    | num q => simp at hcx; exact hcx ▸ hc
    | nan => simp at hcx
    | str s => simp at hcx
  · intro h
    exact ⟨Cell.num x, h, rfl⟩

theorem cellsValid_map_num (l : List ℚ) : cellsValid (l.map Cell.num) = l := by
  unfold cellsValid
  rw [List.filterMap_map]
  have : ((fun c => match c with | Cell.num q => some q | _ => none) ∘ Cell.num)
      = fun q => some q := rfl
  rw [this]
  exact List.filterMap_eq_map id ▸ (by simpa using List.filterMap_eq_map (id : ℚ → ℚ) ▸ rfl)

theorem cellsValid_replicate_nan (n : Nat) : cellsValid (List.replicate n Cell.nan) = [] := by
  unfold cellsValid
  rw [List.filterMap_eq_nil]
  intro a ha
  rw [List.eq_of_mem_replicate ha]

theorem filterMapZipFalse {α : Type} (l1 : List α) (l2 : List Bool)
    (h : ∀ b ∈ l2, b = false) :
    ((l1.zip l2).filterMap (fun p => if p.2 then some p.1 else none)) = [] := by
  rw [List.filterMap_eq_nil]
  intro p hp
  have hb := (List.of_mem_zip hp).2
  have : p.2 = false := h p.2 hb
  simp [this]

theorem zFlag_const (col : List Cell) (a : ℚ)
    (h : ∀ c ∈ col, c = Cell.num a ∨ c = Cell.nan) :
    ∀ b ∈ zFlag col, b = false := by
  intro b hb
  unfold zFlag at hb
  set v := cellsValid col with hv
  by_cases hnv : v.length ≤ 1
  · simp only [if_pos hnv] at hb
    rcases List.mem_map.mp hb with ⟨c, _, hc⟩
    exact hc.symm
  · simp only [if_neg hnv] at hb
    have hva : ∀ x ∈ v, x = a := by
      intro x hx
      have : Cell.num x ∈ col := (mem_cellsValid col x).mp (hv ▸ hx)
      rcases h _ this with h1 | h1
      · exact Cell.num.inj h1
      · cases h1
    have hsum : v.sum = v.length • a := List.sum_eq_card_nsmul v a hva
    have hnv0 : (v.length : ℚ) ≠ 0 := by
      have : 1 < v.length := Nat.lt_of_not_le hnv
      positivity
    have hm : v.sum / (v.length : ℚ) = a := by
      rw [hsum, nsmul_eq_mul, mul_comm, mul_div_assoc, div_self hnv0, mul_one]
    have hdev : ∀ y ∈ v.map (fun x => (x - v.sum / (v.length : ℚ)) ^ 2), y = 0 := by
      intro y hy
      rcases List.mem_map.mp hy with ⟨x, hx, hxy⟩
      rw [← hxy, hm, hva x hx, sub_self]
      ring
    have hs2 : (v.map (fun x => (x - v.sum / (v.length : ℚ)) ^ 2)).sum / ((v.length : ℚ) - 1) = 0 := by
      rw [List.sum_eq_card_nsmul _ 0 hdev]
      simp
    rw [if_pos hs2] at hb
    rcases List.mem_map.mp hb with ⟨c, _, hc⟩
    exact hc.symm

theorem mem_firstDedupAux (l : List String) (seen : List String) (x : String) :
    x ∈ firstDedupAux l seen ↔ x ∈ l ∧ x ∉ seen := by
  induction l generalizing seen with
  | nil => simp [firstDedupAux]
  | cons y ys ih =>
    unfold firstDedupAux
    by_cases hy : seen.contains y
    · rw [if_pos hy, ih]
      have hymem : y ∈ seen := by simpa using hy
      constructor
      · rintro ⟨h1, h2⟩
        exact ⟨List.mem_cons_of_mem _ h1, h2⟩
      · rintro ⟨h1, h2⟩
        rcases List.mem_cons.mp h1 with h3 | h3
        · exact absurd (h3 ▸ hymem) h2
        · exact ⟨h3, h2⟩
    · rw [if_neg hy]
      have hynot : y ∉ seen := by simpa using hy
      constructor
      · intro hmem
        rcases List.mem_cons.mp hmem with h3 | h3
        · exact ⟨h3 ▸ List.mem_cons_self y ys, h3 ▸ hynot⟩
        · rcases (ih (y :: seen)).mp h3 with ⟨h4, h5⟩
          refine ⟨List.mem_cons_of_mem _ h4, fun hc => h5 (List.mem_cons_of_mem _ hc)⟩
      · rintro ⟨h1, h2⟩
        rcases List.mem_cons.mp h1 with h3 | h3
        · exact h3 ▸ List.mem_cons_self y _
        · by_cases hxy : x = y
          · exact hxy ▸ List.mem_cons_self y _
          · exact List.mem_cons_of_mem _ ((ih (y :: seen)).mpr
              ⟨h3, fun hc => (List.mem_cons.mp hc).elim hxy h2⟩)

theorem mem_firstDedup (l : List String) (x : String) :
    x ∈ firstDedup l ↔ x ∈ l := by
  unfold firstDedup
  rw [mem_firstDedupAux]
  simp

theorem mem_insByCount (p q : String × Nat) (l : List (String × Nat)) :
    q ∈ insByCount p l ↔ q = p ∨ q ∈ l := by
  induction l with
  | nil => simp [insByCount]
  | cons r rs ih =>
    unfold insByCount
    by_cases hr : p.2 ≥ r.2
    · simp [if_pos hr, List.mem_cons]
    · simp only [if_neg hr, List.mem_cons, ih]
      tauto

theorem mem_sortByCountDesc (q : String × Nat) (l : List (String × Nat)) :
    q ∈ sortByCountDesc l ↔ q ∈ l := by
  induction l with
  | nil => simp [sortByCountDesc]
  | cons r rs ih =>
    show q ∈ insByCount r (sortByCountDesc rs) ↔ _
    rw [mem_insByCount]
    simp [ih, List.mem_cons]

theorem pairwise_insByCount (p : String × Nat) (l : List (String × Nat))
    (h : l.Pairwise (fun a b => b.2 ≤ a.2)) :
    (insByCount p l).Pairwise (fun a b => b.2 ≤ a.2) := by
  induction l with
  | nil => simp [insByCount]
  | cons r rs ih =>
    unfold insByCount
    rcases List.pairwise_cons.mp h with ⟨hr, hrs⟩
    by_cases hge : p.2 ≥ r.2
    · rw [if_pos hge]
      refine List.pairwise_cons.mpr ⟨?_, h⟩
      intro b hb
      rcases List.mem_cons.mp hb with h1 | h1
      · exact h1 ▸ hge
      · exact le_trans (hr b h1) hge
    · rw [if_neg hge]
      refine List.pairwise_cons.mpr ⟨?_, ih hrs⟩
      intro b hb
      rcases (mem_insByCount p b rs).mp hb with h1 | h1
      · exact h1 ▸ Nat.le_of_not_le hge
      · exact hr b h1

theorem pairwise_sortByCountDesc (l : List (String × Nat)) :
    (sortByCountDesc l).Pairwise (fun a b => b.2 ≤ a.2) := by
  induction l with
  | nil => simp [sortByCountDesc]
  | cons r rs ih => exact pairwise_insByCount r (sortByCountDesc rs) ih

theorem mem_valueCounts (l : List String) (pr : String × Nat) (h : pr ∈ valueCounts l) :
    pr.1 ∈ l ∧ pr.2 = l.count pr.1 := by
  unfold valueCounts at h
  rw [mem_sortByCountDesc] at h
  rcases List.mem_map.mp h with ⟨c, hc, hceq⟩
  rw [← hceq]
  exact ⟨(mem_firstDedup l c).mp hc, rfl⟩

theorem valueCounts_head_max (l : List String) (p : String × Nat) (rest : List (String × Nat))
    (h : valueCounts l = p :: rest) : ∀ q ∈ valueCounts l, q.2 ≤ p.2 := by
  intro q hq
  have hp := pairwise_sortByCountDesc ((firstDedup l).map (fun c => (c, l.count c)))
  unfold valueCounts at h hq
  rw [h] at hp hq
  rcases List.mem_cons.mp hq with h1 | h1
  · exact h1 ▸ le_refl _
  · exact (List.pairwise_cons.mp hp).1 q h1

/-! Claim theorems. -/

/-- C2: for every state, the transition out of critique_summary goes to the
terminal state (END, modelled as `none`) if and only if the feedback field
equals the acceptance sentinel "Good"; for any other feedback value it goes
back to nl_summary; and every other node of the graph has a fixed successor
independent of the state, so the critique edge is the only branch. -/
theorem critique_branch_iff_good (s : AgentState) :
    (nextNode WNode.critique_summary s = none ↔ s.feedback = "Good")
    ∧ (nextNode WNode.critique_summary s = some WNode.nl_summary ↔ ¬ s.feedback = "Good")
    ∧ nextNode WNode.validate_readings s = some WNode.detect_anomalies
    ∧ nextNode WNode.detect_anomalies s = some WNode.classify_air_quality
    ∧ nextNode WNode.classify_air_quality s = some WNode.alert_decision
    ∧ nextNode WNode.alert_decision s = some WNode.generate_trend_summary
    ∧ nextNode WNode.generate_trend_summary s = some WNode.nl_summary
    ∧ nextNode WNode.nl_summary s = some WNode.critique_summary := by
  by_cases hf : s.feedback = "Good" <;>
    simp [nextNode, critiqueBranch, should_continue_refining, hf]

/-- Witness for C2 at concrete states: with feedback "Good" the critique
edge exits to END, with empty feedback it loops back to nl_summary. -/
theorem critique_branch_iff_good_witness :
    nextNode WNode.critique_summary { st0 with feedback := "Good" } = none
    ∧ nextNode WNode.critique_summary st0 = some WNode.nl_summary := by
  constructor
  · exact (critique_branch_iff_good { st0 with feedback := "Good" }).1.mpr rfl
  · exact (critique_branch_iff_good st0).2.1.mpr (by decide)

/-- C7: on any dataset whose primary-pollutant column has zero variance
(all readings one constant value, possibly with missing readings), the
anomaly detector returns the empty anomaly list instead of crashing on the
zero standard deviation. -/
theorem detect_zero_variance_empty (df : DF) (a : ℚ)
    (hc : df.hasCol pm25name = true)
    (h : ∀ c ∈ df.getCol pm25name, c = Cell.num a ∨ c = Cell.nan) :
    detectDF df = Except.ok [] := by
  unfold detectDF getColE
  rw [if_pos hc]
  show Except.ok _ = _
  rw [filterMapZipFalse _ _ (zFlag_const _ a h)]

/-- Witness for C7: three identical readings produce no anomalies. -/
theorem detect_zero_variance_empty_witness : detectDF constDS = Except.ok [] :=
  detect_zero_variance_empty constDS 5 (by decide) (by decide)

/-- C8 (amended): alert_decision always succeeds, and triggers the alert
exactly when the anomaly ratio (anomaly count over record count, defined as
0 for an empty dataset) strictly exceeds the threshold; on an empty dataset
the result is false for every nonnegative threshold.  (The unamended "the
result is false" fails for a negative threshold, since the code still
compares 0 > threshold — see the counterexample.) -/
theorem alert_decision_ratio_iff (s : AgentState) :
    ∃ s2, alert_decision s = Except.ok s2
      ∧ (s2.alert_triggered = true ↔
          (if s.data.nrows > 0 then (s.anomalies.length : ℚ) / (s.data.nrows : ℚ) else 0)
            > s.anomaly_threshold)
      ∧ (s.data.nrows = 0 → 0 ≤ s.anomaly_threshold → s2.alert_triggered = false) := by
  refine ⟨_, rfl, ?_, ?_⟩
  · exact decide_eq_true_iff
  · intro h0 hθ
    simp only [h0]
    have : ¬ ((0 : ℚ) > s.anomaly_threshold) := not_lt.mpr hθ
    simp [this]

/-- Witness for C8 at a concrete paused-run state: one record, no
anomalies, threshold 1% — the ratio 0 does not exceed 1/100, no alert. -/
theorem alert_decision_ratio_iff_witness :
    ∃ s2, alert_decision st0 = Except.ok s2
      ∧ (s2.alert_triggered = true ↔
          (if st0.data.nrows > 0 then (st0.anomalies.length : ℚ) / (st0.data.nrows : ℚ) else 0)
            > st0.anomaly_threshold)
      ∧ (st0.data.nrows = 0 → 0 ≤ st0.anomaly_threshold → s2.alert_triggered = false) :=
  alert_decision_ratio_iff st0

/-- Counterexample for C8 as stated: on the empty dataset with threshold
-1 the code computes ratio 0 and `0 > -1`, so `alert_triggered` comes back
true, contradicting "when the dataset is empty ... the result is false". -/
theorem alert_decision_empty_neg_threshold :
    negState.data.nrows = 0
    ∧ alert_decision negState = Except.ok { negState with alert_triggered := true } := by
  constructor
  · rfl
  · decide

/-- Counterexample for C5 as stated: on the empty dataset (no records, so
`pd.DataFrame([])` has no columns at all) classify fails with a pandas
KeyError on the missing "Date" grouping column — not with an
`EmptyDatasetError`, a class the repository never defines. -/
theorem classify_empty_keyerror :
    classifyDF emptyDF = Except.error (PdErr.keyError "Date") := by
  decide

/-- C5 (amended): the code has no `EmptyDatasetError`.  On the empty
dataset classify fails with a KeyError on "Date" (see the counterexample);
when a Date column exists but grouping leaves no groups (every date key
NaN/NaT), it fails with the ValueError that `idxmax()` raises on an empty
series. -/
theorem classify_no_groups_valueerror (df : DF)
    (hts : df.hasCol "Timestamp" = false)
    (hd : df.hasCol "Date" = true)
    (hp : df.hasCol pm25name = true)
    (hk : (df.getCol "Date").filterMap
        (fun c => match c with | Cell.str s => some s | _ => none) = []) :
    classifyDF df = Except.error PdErr.valueErrorEmptyIdxmax := by
  unfold classifyDF withDateFromTs
  simp only [hts, Bool.false_eq_true, if_false, hd, hp, if_true]
  unfold dayLabels sortedKeys
  rw [hk]
  rfl

/-- Witness for C5 (amended): one record whose Date entry is NaT. -/
theorem classify_no_groups_valueerror_witness :
    classifyDF noKeysDS = Except.error PdErr.valueErrorEmptyIdxmax :=
  classify_no_groups_valueerror noKeysDS (by decide) (by decide) (by decide) (by decide)

/-- Counterexample for C3 as stated: a dataset whose primary-pollutant
column is present but entirely non-numeric does not make validate fail at
all — it succeeds, returning the column as all-NaN (coerce to NaN, then
`fillna` with the undefined (NaN) mean is a no-op). -/
theorem validate_nonnumeric_succeeds :
    (∀ c ∈ nonNumericDS.getCol pm25name, toNumeric c = Cell.nan)
    ∧ validateDF nonNumericDS = Except.ok nonNumericOut := by
  constructor
  · decide
  · decide


theorem DF.hasCol_setCol_self (df : DF) (c : String) (vals : List Cell) :
    (df.setCol c vals).hasCol c = true := by
  unfold DF.setCol
  by_cases hc : df.hasCol c = true
  · simp only [hc, if_true]
    rcases List.any_eq_true.mp hc with ⟨p, hp, hpc⟩
    refine List.any_eq_true.mpr ⟨if p.1 = c then (c, vals) else p, List.mem_map_of_mem _ hp, ?_⟩
    by_cases hpc2 : p.1 = c <;> simp_all
  · have hc' : df.hasCol c = false := by simpa using hc
    simp only [hc', Bool.false_eq_true, if_false]
    unfold DF.hasCol
    simp [List.any_append]

theorem vDate_hasCol_ne (d : DF) (c : String) (h : c ≠ "Date") :
    (vDate d).hasCol c = d.hasCol c := by
  unfold vDate
  by_cases hts : d.hasCol "Timestamp" = true
  · simp only [hts, if_true]; exact DF.hasCol_setCol_ne _ _ _ _ h
  · have hts' : d.hasCol "Timestamp" = false := by simpa using hts
    simp only [hts', Bool.false_eq_true, if_false]; exact DF.hasCol_setCol_ne _ _ _ _ h

theorem vDate_getCol_ne (d : DF) (c : String) (h : c ≠ "Date") :
    (vDate d).getCol c = d.getCol c := by
  unfold vDate
  by_cases hts : d.hasCol "Timestamp" = true
  · simp only [hts, if_true]; exact DF.getCol_setCol_ne _ _ _ _ h
  · have hts' : d.hasCol "Timestamp" = false := by simpa using hts
    simp only [hts', Bool.false_eq_true, if_false]; exact DF.getCol_setCol_ne _ _ _ _ h

theorem vDate_hasCol_Date (d : DF) : (vDate d).hasCol "Date" = true := by
  unfold vDate
  by_cases hts : d.hasCol "Timestamp" = true
  · simp only [hts, if_true]; exact DF.hasCol_setCol_self _ _ _
  · have hts' : d.hasCol "Timestamp" = false := by simpa using hts
    simp only [hts', Bool.false_eq_true, if_false]; exact DF.hasCol_setCol_self _ _ _

theorem vDate_getCol_Date (d : DF) :
    (vDate d).getCol "Date"
      = (if d.hasCol "Timestamp" then (d.getCol "Timestamp").map dateOfCell
         else List.replicate d.nrows (Cell.str "Unknown")) := by
  unfold vDate
  by_cases hts : d.hasCol "Timestamp" = true
  · simp only [hts, if_true]; exact DF.getCol_setCol_self _ _ _
  · have hts' : d.hasCol "Timestamp" = false := by simpa using hts
    simp only [hts', Bool.false_eq_true, if_false]; exact DF.getCol_setCol_self _ _ _

theorem vStage5_hasCol_ne (d : DF) (c : String)
    (h1 : c ≠ "Date") (h2 : c ≠ pm25name) (h3 : c ≠ pm10name) :
    (vStage5 d).hasCol c = d.hasCol c := by
  unfold vStage5
  rw [DF.hasCol_setCol_ne _ _ _ _ h3, DF.hasCol_setCol_ne _ _ _ _ h2,
      DF.hasCol_setCol_ne _ _ _ _ h3, DF.hasCol_setCol_ne _ _ _ _ h2,
      vDate_hasCol_ne _ _ h1]

theorem vStage5_getCol_ne (d : DF) (c : String)
    (h1 : c ≠ "Date") (h2 : c ≠ pm25name) (h3 : c ≠ pm10name) :
    (vStage5 d).getCol c = d.getCol c := by
  unfold vStage5
  rw [DF.getCol_setCol_ne _ _ _ _ h3, DF.getCol_setCol_ne _ _ _ _ h2,
      DF.getCol_setCol_ne _ _ _ _ h3, DF.getCol_setCol_ne _ _ _ _ h2,
      vDate_getCol_ne _ _ h1]

theorem vStage5_hasCol_pm25 (d : DF) : (vStage5 d).hasCol pm25name = true := by
  unfold vStage5
  rw [DF.hasCol_setCol_ne _ _ _ _ (by decide)]
  exact DF.hasCol_setCol_self _ _ _

theorem vStage5_hasCol_pm10 (d : DF) : (vStage5 d).hasCol pm10name = true := by
  unfold vStage5
  exact DF.hasCol_setCol_self _ _ _

theorem vStage5_hasCol_Date (d : DF) : (vStage5 d).hasCol "Date" = true := by
  unfold vStage5
  rw [DF.hasCol_setCol_ne _ _ _ _ (by decide), DF.hasCol_setCol_ne _ _ _ _ (by decide),
      DF.hasCol_setCol_ne _ _ _ _ (by decide), DF.hasCol_setCol_ne _ _ _ _ (by decide)]
  exact vDate_hasCol_Date d

theorem vStage5_getCol_pm25 (d : DF) :
    (vStage5 d).getCol pm25name
      = fillna (((vDate d).getCol pm25name).map toNumeric)
          (pdMean (((vDate d).getCol pm25name).map toNumeric)) := by
  unfold vStage5
  rw [DF.getCol_setCol_ne _ _ _ _ (by decide), DF.getCol_setCol_self,
      DF.getCol_setCol_ne _ _ _ _ (by decide), DF.getCol_setCol_self]

theorem vStage5_getCol_Date (d : DF) :
    (vStage5 d).getCol "Date"
      = (if d.hasCol "Timestamp" then (d.getCol "Timestamp").map dateOfCell
         else List.replicate d.nrows (Cell.str "Unknown")) := by
  unfold vStage5
  rw [DF.getCol_setCol_ne _ _ _ _ (by decide), DF.getCol_setCol_ne _ _ _ _ (by decide),
      DF.getCol_setCol_ne _ _ _ _ (by decide), DF.getCol_setCol_ne _ _ _ _ (by decide)]
  exact vDate_getCol_Date d

theorem validateDF_missing_pm25 (d : DF) (h25 : d.hasCol pm25name = false) :
    validateDF d = Except.error (PdErr.keyError pm25name) := by
  simp only [validateDF]
  rw [vDate_hasCol_ne _ _ (by decide), h25]
  simp

theorem validateDF_missing_pm10 (d : DF) (h25 : d.hasCol pm25name = true)
    (h10 : d.hasCol pm10name = false) :
    validateDF d = Except.error (PdErr.keyError pm10name) := by
  simp only [validateDF]
  rw [vDate_hasCol_ne _ _ (by decide), h25,
      DF.hasCol_setCol_ne _ _ _ _ (by decide), vDate_hasCol_ne _ _ (by decide), h10]
  simp

theorem validateDF_eq_resetIndex (d : DF) (h25 : d.hasCol pm25name = true)
    (h10 : d.hasCol pm10name = true) :
    validateDF d = (vStage5 d).resetIndex := by
  simp only [validateDF]
  rw [vDate_hasCol_ne _ _ (by decide), h25,
      DF.hasCol_setCol_ne _ _ _ _ (by decide), vDate_hasCol_ne _ _ (by decide), h10]
  simp

theorem validateDF_index_exists (d : DF) (h25 : d.hasCol pm25name = true)
    (h10 : d.hasCol pm10name = true) (hidx : d.hasCol "index" = true) :
    validateDF d = Except.error PdErr.valueErrorIndexExists := by
  rw [validateDF_eq_resetIndex d h25 h10]
  unfold DF.resetIndex
  rw [if_pos (by rw [vStage5_hasCol_ne _ _ (by decide) (by decide) (by decide)]; exact hidx)]

/-- C3 (amended): validate fails only with a pandas KeyError, and only when
a required pollutant column is entirely absent; a column that is present
but entirely non-numeric does not fail — the run proceeds with that column
coerced to all-NaN (its mean is undefined, so the fillna step changes
nothing).  The code defines no ValidationError. -/
theorem validate_missing_or_nonnumeric (d : DF) :
    (d.hasCol pm25name = false → validateDF d = Except.error (PdErr.keyError pm25name))
    ∧ (d.hasCol pm25name = true → d.hasCol pm10name = false →
        validateDF d = Except.error (PdErr.keyError pm10name))
    ∧ (d.hasCol pm25name = true → d.hasCol pm10name = true → d.hasCol "index" = false →
        (∀ c ∈ d.getCol pm25name, toNumeric c = Cell.nan) →
        ∃ out, validateDF d = Except.ok out
          ∧ out.getCol pm25name = List.replicate (d.getCol pm25name).length Cell.nan) := by
  refine ⟨validateDF_missing_pm25 d, validateDF_missing_pm10 d, ?_⟩
  intro h25 h10 hidx hnn
  rw [validateDF_eq_resetIndex d h25 h10]
  unfold DF.resetIndex
  have hno : ¬ ((vStage5 d).hasCol "index" = true) := by
    rw [vStage5_hasCol_ne _ _ (by decide) (by decide) (by decide), hidx]
    simp
  rw [if_neg hno]
  refine ⟨_, rfl, ?_⟩
  have hne : ("index" : String) ≠ pm25name := by decide
  have hg := DF.getCol_mk_cons_ne
    ("index", (List.range (vStage5 d).nrows).map (fun i => Cell.num i))
    (vStage5 d).cols pm25name hne
  rw [hg]
  show (vStage5 d).getCol pm25name = _
  rw [vStage5_getCol_pm25, vDate_getCol_ne _ _ (by decide)]
  have hrep : (d.getCol pm25name).map toNumeric
      = List.replicate (d.getCol pm25name).length Cell.nan := by
    have h1 : ∀ b ∈ (d.getCol pm25name).map toNumeric, b = Cell.nan := by
      intro b hb
      rcases List.mem_map.mp hb with ⟨c, hc, hcb⟩
      rw [← hcb]; exact hnn c hc
    have h2 := List.eq_replicate_of_mem h1
    simpa using h2
  rw [hrep]
  have hmean : pdMean (List.replicate (d.getCol pm25name).length Cell.nan) = Cell.nan := by
    unfold pdMean
    rw [cellsValid_replicate_nan]
    simp
  rw [hmean]
  unfold fillna
  rw [List.map_replicate]

/-- Witness for C3 (amended): `nonNumericDS` has both columns, no index
column, and an entirely non-numeric primary column, so validate succeeds
with an all-NaN column of the original length 2. -/
theorem validate_missing_or_nonnumeric_witness :
    ∃ out, validateDF nonNumericDS = Except.ok out
      ∧ out.getCol pm25name = List.replicate (nonNumericDS.getCol pm25name).length Cell.nan :=
  (validate_missing_or_nonnumeric nonNumericDS).2.2 (by decide) (by decide) (by decide) (by decide)

/-- C9 (amended): validate is not re-applicable at all.  Its final
`reset_index()` inserts an `index` column, so applying validate to any of
its own outputs reaches `reset_index()` with that column already present
and fails with the pandas ValueError ("cannot insert index, already
exists").  The value-level steps are idempotent (numeric columns stay
numeric, the fillna mean substitution changes nothing further), but the
run never gets past `reset_index()`. -/
theorem validate_twice_value_error (d out : DF) (hv : validateDF d = Except.ok out) :
    validateDF out = Except.error PdErr.valueErrorIndexExists := by
  by_cases h25 : d.hasCol pm25name = true
  case neg =>
    have h25' : d.hasCol pm25name = false := by simpa using h25
    rw [validateDF_missing_pm25 d h25'] at hv
    cases hv
  by_cases h10 : d.hasCol pm10name = true
  case neg =>
    have h10' : d.hasCol pm10name = false := by simpa using h10
    rw [validateDF_missing_pm10 d h25 h10'] at hv
    cases hv
  rw [validateDF_eq_resetIndex d h25 h10] at hv
  unfold DF.resetIndex at hv
  by_cases hix : (vStage5 d).hasCol "index" = true
  · rw [if_pos hix] at hv
    cases hv
  · rw [if_neg hix] at hv
    have hout := Except.ok.inj hv
    rw [← hout]
    apply validateDF_index_exists
    · rw [DF.hasCol_mk_cons]
      rw [vStage5_hasCol_pm25]
      simp
    · rw [DF.hasCol_mk_cons]
      rw [vStage5_hasCol_pm10]
      simp
    · rw [DF.hasCol_mk_cons]
      simp

/-- Counterexample for C9 as stated: validate accepts `exDS`, but running
validate a second time on that output raises the duplicate-index ValueError
instead of succeeding. -/
theorem validate_twice_counterexample :
    validateDF exDS = Except.ok exOut
    ∧ validateDF exOut = Except.error PdErr.valueErrorIndexExists := by
  constructor
  · decide
  · decide

/-- Witness for C9 (amended) at the concrete accepted dataset `exDS`. -/
theorem validate_twice_value_error_witness :
    validateDF exOut = Except.error PdErr.valueErrorIndexExists :=
  validate_twice_value_error exDS exOut (by decide)

theorem strKeys_replicate (n : Nat) (u : String) :
    (List.replicate n (Cell.str u)).filterMap
      (fun c => match c with | Cell.str s => some s | _ => none) = List.replicate n u := by
  induction n with
  | zero => rfl
  | succ m ih => simp [List.replicate_succ, ih]

theorem firstDedupAux_replicate_seen (m : Nat) (u : String) (seen : List String)
    (h : seen.contains u = true) : firstDedupAux (List.replicate m u) seen = [] := by
  induction m with
  | zero => rfl
  | succ k ih =>
    rw [List.replicate_succ]
    unfold firstDedupAux
    rw [if_pos h]
    exact ih

theorem firstDedup_replicate (n : Nat) (u : String) (hn : 1 ≤ n) :
    firstDedup (List.replicate n u) = [u] := by
  cases n with
  | zero => omega
  | succ m =>
    unfold firstDedup
    rw [List.replicate_succ]
    unfold firstDedupAux
    rw [if_neg (by simp)]
    rw [firstDedupAux_replicate_seen m u [u] (by simp)]

theorem sortedKeys_replicate (n : Nat) (u : String) (hn : 1 ≤ n) :
    sortedKeys (List.replicate n (Cell.str u)) = [u] := by
  unfold sortedKeys
  rw [strKeys_replicate, firstDedup_replicate n u hn]
  rfl

theorem zip_replicate_filterMap (l : List Cell) (a : Cell) :
    ((List.replicate l.length a).zip l).filterMap
      (fun p => if p.1 = a then some p.2 else none) = l := by
  induction l with
  | nil => rfl
  | cons x xs ih => simp [List.replicate_succ, List.zip_cons_cons, ih]

theorem groupMean_replicate (l : List Cell) (u : String) :
    groupMean (List.replicate l.length (Cell.str u)) l u = pdMean l := by
  unfold groupMean
  rw [zip_replicate_filterMap]

theorem valueCounts_singleton (c : String) : valueCounts [c] = [(c, 1)] := by
  unfold valueCounts firstDedup firstDedupAux sortByCountDesc
  simp [insByCount, firstDedupAux]

/-- C10: for a validated dataset whose source had no Timestamp column, the
Date column is the constant "Unknown", classify therefore forms exactly one
group, and the result is the AQI category of the mean of the primary
pollutant over the whole dataset with frequency breakdown `{category: 1}`. -/
theorem classify_no_timestamp_single_group (d out : DF)
    (hts : d.hasCol "Timestamp" = false)
    (hn : 1 ≤ d.nrows)
    (hlen : (d.getCol pm25name).length = d.nrows)
    (hv : validateDF d = Except.ok out) :
    out.getCol "Date" = List.replicate d.nrows (Cell.str "Unknown")
    ∧ classifyDF out = Except.ok (aqiLabelCell (pdMean (out.getCol pm25name)),
        [(aqiLabelCell (pdMean (out.getCol pm25name)), 1)]) := by
  by_cases h25 : d.hasCol pm25name = true
  case neg =>
    have h25' : d.hasCol pm25name = false := by simpa using h25
    rw [validateDF_missing_pm25 d h25'] at hv
    cases hv
  by_cases h10 : d.hasCol pm10name = true
  case neg =>
    have h10' : d.hasCol pm10name = false := by simpa using h10
    rw [validateDF_missing_pm10 d h25 h10'] at hv
    cases hv
  rw [validateDF_eq_resetIndex d h25 h10] at hv
  unfold DF.resetIndex at hv
  by_cases hix : (vStage5 d).hasCol "index" = true
  · rw [if_pos hix] at hv
    cases hv
  · rw [if_neg hix] at hv
    have hout := Except.ok.inj hv
    rw [← hout]
    have hDateNe : ("index" : String) ≠ "Date" := by decide
    have hPmNe : ("index" : String) ≠ pm25name := by decide
    have hTsNe : ("index" : String) ≠ "Timestamp" := by decide
    set ixcol : String × List Cell
      := ("index", (List.range (vStage5 d).nrows).map (fun i => Cell.num i)) with hixcol
    have hgDate : (DF.mk (ixcol :: (vStage5 d).cols)).getCol "Date"
        = List.replicate d.nrows (Cell.str "Unknown") := by
      rw [DF.getCol_mk_cons_ne ixcol _ "Date" hDateNe]
      show (vStage5 d).getCol "Date" = _
      rw [vStage5_getCol_Date]
      simp [hts]
    have hgPm : (DF.mk (ixcol :: (vStage5 d).cols)).getCol pm25name
        = (vStage5 d).getCol pm25name := by
      rw [DF.getCol_mk_cons_ne ixcol _ pm25name hPmNe]
    have hlenPm : ((vStage5 d).getCol pm25name).length = d.nrows := by
      rw [vStage5_getCol_pm25, vDate_getCol_ne _ _ (by decide)]
      unfold fillna
      rw [List.length_map, List.length_map]
      exact hlen
    refine ⟨hgDate, ?_⟩
    unfold classifyDF
    have hwts : withDateFromTs (DF.mk (ixcol :: (vStage5 d).cols))
        = DF.mk (ixcol :: (vStage5 d).cols) := by
      unfold withDateFromTs
      rw [if_neg ?_]
      rw [DF.hasCol_mk_cons]
      rw [vStage5_hasCol_ne _ _ (by decide) (by decide) (by decide), hts]
      simp [hixcol]
    rw [hwts]
    rw [if_pos (by rw [DF.hasCol_mk_cons, vStage5_hasCol_Date]; simp)]
    rw [if_pos (by rw [DF.hasCol_mk_cons, vStage5_hasCol_pm25]; simp)]
    rw [hgDate, hgPm]
    unfold dayLabels
    have hnrep : List.replicate d.nrows (Cell.str "Unknown")
        = List.replicate ((vStage5 d).getCol pm25name).length (Cell.str "Unknown") := by
      rw [hlenPm]
    rw [sortedKeys_replicate d.nrows "Unknown" hn]
    rw [List.map_singleton, hnrep, groupMean_replicate]
    rw [valueCounts_singleton]

/-- Witness for C10 at the concrete dataset `exDS` (no Timestamp): one
record with PM2.5 = 10, classified Good with frequency 1. -/
theorem classify_no_timestamp_single_group_witness :
    exOut.getCol "Date" = List.replicate exDS.nrows (Cell.str "Unknown")
    ∧ classifyDF exOut = Except.ok (aqiLabelCell (pdMean (exOut.getCol pm25name)),
        [(aqiLabelCell (pdMean (exOut.getCol pm25name)), 1)]) :=
  classify_no_timestamp_single_group exDS exOut (by decide) (by decide) (by decide) (by decide)

theorem mem_valueCounts_of_mem (l : List String) (c : String) (h : c ∈ l) :
    (c, l.count c) ∈ valueCounts l := by
  unfold valueCounts
  rw [mem_sortByCountDesc]
  exact List.mem_map_of_mem _ ((mem_firstDedup l c).mpr h)

unseal Rat.mul Rat.inv Rat.add Rat.sub in
/-- C6: whenever classify succeeds with primary category p and breakdown
bd, then — writing L for the list of daily AQI labels (one per group key) —
p occurs among the daily labels and has the maximal day count of any label
(most frequent across days); the breakdown is sound (each entry is a label
with its exact day count) and complete (every daily label appears with its
exact day count), so bd is the full frequency breakdown; and on the two
concrete single-day single-record datasets of the claim the results are
Good with `{Good: 1}` (PM2.5 = 10) and Hazardous with `{Hazardous: 1}`
(PM2.5 = 200). -/
theorem classify_most_frequent (df : DF) (p : String) (bd : List (String × Nat))
    (h : classifyDF df = Except.ok (p, bd)) :
    (∃ k, (p, k) ∈ bd ∧ ∀ pr ∈ bd, pr.2 ≤ k)
    ∧ (∀ pr ∈ bd,
        pr.1 ∈ dayLabels ((withDateFromTs df).getCol "Date") ((withDateFromTs df).getCol pm25name)
        ∧ pr.2 = (dayLabels ((withDateFromTs df).getCol "Date")
            ((withDateFromTs df).getCol pm25name)).count pr.1)
    ∧ (∀ c ∈ dayLabels ((withDateFromTs df).getCol "Date") ((withDateFromTs df).getCol pm25name),
        (c, (dayLabels ((withDateFromTs df).getCol "Date")
            ((withDateFromTs df).getCol pm25name)).count c) ∈ bd)
    ∧ p ∈ dayLabels ((withDateFromTs df).getCol "Date") ((withDateFromTs df).getCol pm25name)
    ∧ (∀ c ∈ dayLabels ((withDateFromTs df).getCol "Date") ((withDateFromTs df).getCol pm25name),
        (dayLabels ((withDateFromTs df).getCol "Date")
            ((withDateFromTs df).getCol pm25name)).count c
          ≤ (dayLabels ((withDateFromTs df).getCol "Date")
            ((withDateFromTs df).getCol pm25name)).count p)
    ∧ classifyDF singleGood = Except.ok ("Good", [("Good", 1)])
    ∧ classifyDF singleHaz = Except.ok ("Hazardous", [("Hazardous", 1)]) := by
  unfold classifyDF at h
  by_cases hD : (withDateFromTs df).hasCol "Date" = true
  case neg =>
    rw [if_neg hD] at h
    cases h
  rw [if_pos hD] at h
  by_cases hP : (withDateFromTs df).hasCol pm25name = true
  case neg =>
    rw [if_neg hP] at h
    cases h
  rw [if_pos hP] at h
  set labels := dayLabels ((withDateFromTs df).getCol "Date")
    ((withDateFromTs df).getCol pm25name) with hlabels
  match hvc : valueCounts labels with
  | [] =>
    rw [hvc] at h
    cases h
  | (c, k) :: rest =>
    rw [hvc] at h
    have hinj := Except.ok.inj h
    have hpc : p = c := (Prod.mk.injEq _ _ _ _ ▸ hinj).1.symm
    have hbd : bd = (c, k) :: rest := (Prod.mk.injEq _ _ _ _ ▸ hinj).2.symm
    have hmemhead : (c, k) ∈ valueCounts labels := by
      rw [hvc]
      exact List.mem_cons_self _ _
    have hck := mem_valueCounts labels (c, k) hmemhead
    have hmax := valueCounts_head_max labels (c, k) rest hvc
    refine ⟨⟨k, ?_, ?_⟩, ?_, ?_, ?_, ?_, by decide, by decide⟩
    · rw [hbd, hpc]
      exact List.mem_cons_self _ _
    · intro pr hpr
      exact hmax pr (by rw [hvc, ← hbd]; exact hpr)
    · intro pr hpr
      exact mem_valueCounts labels pr (by rw [hvc, ← hbd]; exact hpr)
    · intro cc hcc
      rw [hbd, ← hvc]
      exact mem_valueCounts_of_mem labels cc hcc
    · rw [hpc]
      exact hck.1
    · intro cc hcc
      have h1 := hmax _ (mem_valueCounts_of_mem labels cc hcc)
      rw [hpc, ← hck.2]
      exact h1

unseal Rat.mul Rat.inv Rat.add Rat.sub in
/-- Witness for C6 at the three-day dataset `multiDS` (labels Good, Good,
Hazardous): the primary category is Good and the breakdown is the complete
list of day counts `{Good: 2, Hazardous: 1}`; every daily label appears in
the breakdown with its exact count. -/
theorem classify_most_frequent_witness :
    classifyDF multiDS = Except.ok ("Good", [("Good", 2), ("Hazardous", 1)])
    ∧ (∀ c ∈ dayLabels ((withDateFromTs multiDS).getCol "Date")
          ((withDateFromTs multiDS).getCol pm25name),
        (c, (dayLabels ((withDateFromTs multiDS).getCol "Date")
            ((withDateFromTs multiDS).getCol pm25name)).count c)
          ∈ [("Good", 2), ("Hazardous", 1)]) := by
  have h := classify_most_frequent multiDS "Good" [("Good", 2), ("Hazardous", 1)] (by decide)
  exact ⟨by decide, h.2.2.1⟩

unseal Rat.mul Rat.inv Rat.add Rat.sub in
/-- Counterexample for C4 as stated: on `c4df` (twelve readings, sample
std of PM2.5 nonzero) the population z-score of record 0 exceeds 3, so the
spec-worded detector flags it, but the code computes the z-score with the
pandas sample standard deviation (ddof = 1) and flags nothing. -/
theorem detect_population_vs_sample :
    detectDF c4df = Except.ok []
    ∧ detectPopSpec c4df = Except.ok ["0"] := by
  constructor
  · decide
  · decide

theorem DF.getCol_eq_nil_of_hasCol_false (df : DF) (c : String)
    (h : df.hasCol c = false) : df.getCol c = [] := by
  unfold DF.getCol
  have hnone : df.cols.find? (fun p => decide (p.1 = c)) = none := by
    rw [List.find?_eq_none]
    intro p hp hpc
    unfold DF.hasCol at h
    rw [List.any_eq_false] at h
    exact h p hp hpc
  rw [hnone]

/-- C4 (amended): for a non-degenerate dataset (at least two readings, all
numeric — which every validated dataset provides unless its column is
entirely NaN — and nonzero variance), detect_anomalies flags exactly the
records whose squared deviation from the mean exceeds 9 times the ddof-1
sample variance Σ(x−μ)²/(n−1) — the z-score of the pandas `Series.std()`,
not the population z-score of the spec — and pairs each reading with its
identifier: the Timestamp index entries (as strings) when a Timestamp
column is present, else the positional indices. -/
theorem detect_flags_sample_zscore (df : DF) (vals : List ℚ)
    (hcol : df.getCol pm25name = vals.map Cell.num)
    (hn : 2 ≤ vals.length)
    (hvar : ((vals.map (fun x => (x - vals.sum / (vals.length : ℚ)) ^ 2)).sum) ≠ 0) :
    detectDF df = Except.ok (((indexIdents df).zip vals).filterMap (fun p =>
      if (p.2 - vals.sum / (vals.length : ℚ)) ^ 2
          > 9 * (((vals.map (fun x => (x - vals.sum / (vals.length : ℚ)) ^ 2)).sum)
              / ((vals.length : ℚ) - 1))
        then some p.1 else none))
    ∧ (df.hasCol "Timestamp" = true →
        indexIdents df = (df.getCol "Timestamp").map cellToStr)
    ∧ (df.hasCol "Timestamp" = false →
        indexIdents df = (List.range df.nrows).map toString) := by
  have hc : df.hasCol pm25name = true := by
    by_cases hcb : df.hasCol pm25name = true
    · exact hcb
    · have h0 := DF.getCol_eq_nil_of_hasCol_false df pm25name (by simpa using hcb)
      rw [h0] at hcol
      have : vals = [] := by
        cases vals with
        | nil => rfl
        | cons v vs => cases hcol
      rw [this] at hn
      simp at hn
  refine ⟨?_, ?_, ?_⟩
  · unfold detectDF getColE
    rw [if_pos hc]
    show Except.ok _ = _
    rw [hcol]
    unfold zFlag
    rw [cellsValid_map_num]
    rw [if_neg (by omega)]
    have hlen1 : ((vals.length : ℚ) - 1) ≠ 0 := by
      have h2 : (2 : ℚ) ≤ (vals.length : ℚ) := by exact_mod_cast hn
      intro hz
      rw [sub_eq_zero] at hz
      linarith
    have hs2 : ((vals.map (fun x => (x - vals.sum / (vals.length : ℚ)) ^ 2)).sum
        / ((vals.length : ℚ) - 1)) ≠ 0 := div_ne_zero hvar hlen1
    rw [if_neg hs2]
    rw [List.map_map, List.zip_map_right, List.filterMap_map]
    refine congrArg Except.ok (List.filterMap_congr ?_)
    intro p hp
    cases p with
    | mk i x =>
      simp only [Function.comp, Prod.map, id]
      by_cases hcond : (x - vals.sum / (vals.length : ℚ)) ^ 2
          > 9 * (((vals.map (fun x => (x - vals.sum / (vals.length : ℚ)) ^ 2)).sum)
              / ((vals.length : ℚ) - 1))
      · simp [hcond]
      · simp [hcond]
  · intro hts
    unfold indexIdents
    rw [hts]
    simp
  · intro hts
    unfold indexIdents
    rw [hts]
    simp

unseal Rat.mul Rat.inv Rat.add Rat.sub in
/-- Witness for C4 (amended) on the timestamped dataset `c4tdf`: a clear
outlier among twelve zeros; the theorem applies, the identifiers are the
Timestamp entries. -/
theorem detect_flags_sample_zscore_witness :
    (detectDF c4tdf = Except.ok (((indexIdents c4tdf).zip c4wvals).filterMap (fun p =>
      if (p.2 - c4wvals.sum / (c4wvals.length : ℚ)) ^ 2
          > 9 * (((c4wvals.map (fun x => (x - c4wvals.sum / (c4wvals.length : ℚ)) ^ 2)).sum)
              / ((c4wvals.length : ℚ) - 1))
        then some p.1 else none))
    ∧ (c4tdf.hasCol "Timestamp" = true →
        indexIdents c4tdf = (c4tdf.getCol "Timestamp").map cellToStr)
    ∧ (c4tdf.hasCol "Timestamp" = false →
        indexIdents c4tdf = (List.range c4tdf.nrows).map toString))
    ∧ detectDF c4tdf = Except.ok ["2024-01-01 00:00:00"] := by
  refine ⟨detect_flags_sample_zscore c4tdf c4wvals (by decide) (by decide) (by decide), ?_⟩
  decide

theorem runLoop_step (llm : String → Except String String) (fuel : Nat) (n : WNode)
    (s : AgentState) (tr : List WNode)
    (hn : interrupt_before.contains n = false)
    (s2 : AgentState) (hrun : runNode llm n s = Except.ok s2)
    (n2 : WNode) (hnext : nextNode n s2 = some n2) :
    runLoop llm (fuel + 1) n s tr = runLoop llm fuel n2 s2 (tr ++ [n]) := by
  have he : runLoop llm (Nat.succ fuel) n s tr =
      (if interrupt_before.contains n = true then RunResult.paused n s tr
       else match runNode llm n s with
         | Except.error e => RunResult.failed e n s tr
         | Except.ok s3 =>
           match nextNode n s3 with
           | none => RunResult.finished s3 (tr ++ [n])
           | some n3 => runLoop llm fuel n3 s3 (tr ++ [n])) := rfl
  show runLoop llm (Nat.succ fuel) n s tr = _
  rw [he, hn]
  simp only [Bool.false_eq_true, if_false]
  rw [hrun]
  show (match nextNode n s2 with
        | none => RunResult.finished s2 (tr ++ [n])
        | some n3 => runLoop llm fuel n3 s2 (tr ++ [n])) = _
  rw [hnext]

theorem runLoop_pause (llm : String → Except String String) (fuel : Nat) (n : WNode)
    (s : AgentState) (tr : List WNode)
    (hn : interrupt_before.contains n = true) :
    runLoop llm (fuel + 1) n s tr = RunResult.paused n s tr := by
  have he : runLoop llm (Nat.succ fuel) n s tr =
      (if interrupt_before.contains n = true then RunResult.paused n s tr
       else match runNode llm n s with
         | Except.error e => RunResult.failed e n s tr
         | Except.ok s3 =>
           match nextNode n s3 with
           | none => RunResult.finished s3 (tr ++ [n])
           | some n3 => runLoop llm fuel n3 s3 (tr ++ [n])) := rfl
  show runLoop llm (Nat.succ fuel) n s tr = _
  rw [he, hn]
  simp

/-- C1: every fresh run on which the three pre-pause statistics nodes
succeed executes validate_readings, detect_anomalies and
classify_air_quality in that order and then pauses before entering
alert_decision (independently of every computed value); in the paused
state `alert_triggered` still carries its initial zero-value false, and
alert_decision has not executed. -/
theorem workflow_pauses_before_alert (llm : String → Except String String) (k : Nat)
    (init : AgentState) (d1 : DF) (a1 : List String) (r1 : String × List (String × Nat))
    (hv : validateDF init.data = Except.ok d1)
    (hd : detectDF d1 = Except.ok a1)
    (hc : classifyDF d1 = Except.ok r1)
    (h0 : init.alert_triggered = false) :
    ∃ s, startRun llm (k + 4) init
        = RunResult.paused WNode.alert_decision s
            [WNode.validate_readings, WNode.detect_anomalies, WNode.classify_air_quality]
      ∧ s.alert_triggered = false ∧ s.data = d1 ∧ s.anomalies = a1 := by
  refine ⟨{ init with data := d1, anomalies := a1, air_quality_class := formatClass r1 },
    ?_, h0, rfl, rfl⟩
  show runLoop llm (k + 4) WNode.validate_readings init [] = _
  rw [show k + 4 = (k + 3) + 1 from rfl]
  rw [runLoop_step llm (k + 3) WNode.validate_readings init [] (by decide)
      { init with data := d1 } (by simp [runNode, validate_readings, hv])
      WNode.detect_anomalies (by simp [nextNode])]
  rw [show k + 3 = (k + 2) + 1 from rfl]
  rw [runLoop_step llm (k + 2) WNode.detect_anomalies { init with data := d1 } _ (by decide)
      { init with data := d1, anomalies := a1 } (by simp [runNode, detect_anomalies, hd])
      WNode.classify_air_quality (by simp [nextNode])]
  rw [show k + 2 = (k + 1) + 1 from rfl]
  rw [runLoop_step llm (k + 1) WNode.classify_air_quality
      { init with data := d1, anomalies := a1 } _ (by decide)
      { init with data := d1, anomalies := a1, air_quality_class := formatClass r1 }
      (by simp [runNode, classify_air_quality, hc])
      WNode.alert_decision (by simp [nextNode])]
  rw [runLoop_pause llm k WNode.alert_decision _ _ (by decide)]
  rfl

unseal Rat.mul Rat.inv Rat.add Rat.sub in
/-- Witness for C1: a concrete fresh run over `exDS` with the default 1%
threshold pauses before alert_decision with the three statistics nodes
executed and no alert raised. -/
theorem workflow_pauses_before_alert_witness :
    ∃ s, startRun llm0 4 st0
        = RunResult.paused WNode.alert_decision s
            [WNode.validate_readings, WNode.detect_anomalies, WNode.classify_air_quality]
      ∧ s.alert_triggered = false ∧ s.data = exOut ∧ s.anomalies = [] :=
  workflow_pauses_before_alert llm0 0 st0 exOut [] ("Good", [("Good", 1)])
    (by decide) (by decide) (by decide) (by decide)
